import Mathlib

/-
  Verification development for the SafeLine matchmaking-and-signaling core of the
  SafeSpace repository.  The repository contains two near-identical variants of the
  core: `app.py` (single-target request dispatch, sessions stored as a symmetric
  `sid -> partner_sid` dictionary) and `app1.py` (broadcast request dispatch,
  sessions stored in a `session_id -> record` table).  Both are embedded below,
  faithfully to the Python source: Python dictionaries become association lists in
  insertion order, Python sets become duplicate-free lists, `time.time()` becomes
  an explicit clock field, and `uuid.uuid4()` session ids become naturals drawn
  from a fresh counter.  Socket emissions are recorded as explicit values.
-/

namespace SafeSpace

/-- JSON-like values carried in socket event payloads. -/
inductive JVal where
  | s (v : String)
  | n (v : Nat)
  deriving DecidableEq, Repr

/-- Delivery target of a socket emission: a single room (socket id), or a
broadcast to every connected participant (`broadcast=True` in flask-socketio). -/
inductive Target where
  | room (sid : String)
  | broadcast
  deriving DecidableEq, Repr

/-- One outbound socket event: event name, delivery target, payload fields. -/
structure Emission where
  event : String
  target : Target
  payload : List (String × JVal)
  deriving DecidableEq, Repr

/-- The socket ids that actually receive an emission, given the list of currently
connected socket ids: a room reaches its socket if connected, a broadcast reaches
every connected socket. -/
def recipients (conn : List String) (e : Emission) : List String :=
  match e.target with
  | Target.room sid => if sid ∈ conn then [sid] else []
  | Target.broadcast => conn

/-- All recipients of the emissions with a given event name, in emission order. -/
def recipientsOf (conn : List String) (eventName : String) (ems : List Emission) :
    List String :=
  (ems.filter (fun em => em.event == eventName)).flatMap (recipients conn)

/-- Python dictionary lookup `d.get(k)` on an association list. -/
def dictGet {κ α : Type} [DecidableEq κ] (k : κ) : List (κ × α) → Option α
  | [] => none
  | (k', v) :: rest => if k = k' then some v else dictGet k rest

/-- Python `del d[k]` / `d.pop(k, None)`: remove the entry keyed `k` (no error if
absent). -/
def dictDel {κ α : Type} [DecidableEq κ] (k : κ) (l : List (κ × α)) : List (κ × α) :=
  l.filter (fun p => decide (p.1 ≠ k))

/-- Python dictionary assignment `d[k] = v`: replace the value at `k` in place if
the key is present (Python 3.7 dictionaries preserve insertion order), else append
a new entry. -/
def dictSet {κ α : Type} [DecidableEq κ] (k : κ) (v : α) : List (κ × α) → List (κ × α)
  | [] => [(k, v)]
  | (k', v') :: rest => if k = k' then (k, v) :: rest else (k', v') :: dictSet k v rest

/-- Python `set.add`.  Python sets are unordered; the model keeps insertion order,
which no modelled operation observes except `app.py`'s arbitrary
`list(online_therapists)[0]` choice, where the model fixes one admissible order. -/
def setAdd (x : String) (l : List String) : List String :=
  if x ∈ l then l else l ++ [x]

/-- Python `set.remove` / `set.discard`. -/
def setDel (x : String) (l : List String) : List String :=
  l.filter (fun y => decide (y ≠ x))

namespace App1

/-- A pending client request record: `client_requests[sid] = {timestamp, status}`
(app1.py, `handle_request_therapist`). -/
structure ReqRec where
  timestamp : Nat
  status : String
  deriving DecidableEq, Repr

/-- An active session record (app1.py, `handle_accept_request`). -/
structure SessionRec where
  client_sid : String
  therapist_sid : String
  start_time : Nat
  end_time : Nat
  status : String
  deriving DecidableEq, Repr

/-- Python's `sid in [session['client_sid'], session['therapist_sid']]`. -/
def participates (sid : String) (sess : SessionRec) : Bool :=
  sid == sess.client_sid || sid == sess.therapist_sid

/-- The global mutable state of app1.py (`online_therapists`, `client_requests`,
`active_sessions`, `waiting_clients`), together with a clock standing for
`time.time()` and a fresh counter standing for `uuid.uuid4()` session-id
generation (uuids are modelled as naturals; their only relevant property is
freshness). -/
structure St where
  online_therapists : List String
  client_requests : List (String × ReqRec)
  waiting_clients : List String
  active_sessions : List (Nat × SessionRec)
  next_id : Nat
  clock : Nat
  deriving DecidableEq, Repr

/-- The state at server start: all stores empty. -/
def initSt : St :=
  { online_therapists := [], client_requests := [], waiting_clients := [],
    active_sessions := [], next_id := 0, clock := 0 }

/-- app1.py `find_session_by_participant`: the first session (in dictionary
insertion order) containing `sid`, with its id. -/
def find_session_by_participant (sid : String) (s : St) : Option (Nat × SessionRec) :=
  s.active_sessions.find? (fun p => participates sid p.2)

/-- app1.py `handle_disconnect`: drop the id from the therapist set (announcing
`therapist-offline` if it was a therapist), drop its request entry and waiting
membership, and remove the first active session containing it, notifying the
other party. -/
def handle_disconnect (sid : String) (s : St) : St × List Emission :=
  let offlineEms : List Emission :=
    if sid ∈ s.online_therapists then [⟨"therapist-offline", Target.broadcast, []⟩] else []
  let online := setDel sid s.online_therapists
  let reqs := dictDel sid s.client_requests
  let waiting := setDel sid s.waiting_clients
  match find_session_by_participant sid s with
  | none =>
    ({ s with
        online_therapists := online,
        client_requests := reqs,
        waiting_clients := waiting }, offlineEms)
  | some (sessionId, sess) =>
    let otherSid := if sid = sess.client_sid then sess.therapist_sid else sess.client_sid
    let notifyEms : List Emission :=
      if otherSid = "" then []
      else [⟨"session-ended", Target.room otherSid, []⟩,
            ⟨"user-left", Target.room otherSid, []⟩]
    ({ s with
        online_therapists := online,
        client_requests := reqs,
        waiting_clients := waiting,
        active_sessions := dictDel sessionId s.active_sessions },
     offlineEms ++ notifyEms)

/-- app1.py `handle_therapist_online`. -/
def handle_therapist_online (sid : String) (s : St) : St × List Emission :=
  ({ s with online_therapists := setAdd sid s.online_therapists },
   [⟨"status-update", Target.room sid, [("message", JVal.s "You are now online")]⟩])

/-- app1.py `handle_therapist_offline`. -/
def handle_therapist_offline (sid : String) (s : St) : St × List Emission :=
  ({ s with online_therapists := setDel sid s.online_therapists },
   [⟨"status-update", Target.room sid, [("message", JVal.s "You are now offline")]⟩])

/-- app1.py `handle_request_therapist`: with no therapist online, report the
error; otherwise record the pending request (entry in `client_requests`,
membership in `waiting_clients`) and emit `therapist-request` with
`broadcast=True`, then `request-sent` to the requester. -/
def handle_request_therapist (sid : String) (s : St) : St × List Emission :=
  if s.online_therapists = [] then
    (s, [⟨"error", Target.room sid,
          [("message", JVal.s "No therapists available. Please try again later.")]⟩])
  else
    ({ s with
        client_requests := dictSet sid ⟨s.clock, "waiting"⟩ s.client_requests,
        waiting_clients := setAdd sid s.waiting_clients },
     [⟨"therapist-request", Target.broadcast,
        [("client_sid", JVal.s sid), ("timestamp", JVal.n s.clock)]⟩,
      ⟨"request-sent", Target.room sid, []⟩])

/-- app1.py `handle_cancel_request`: remove the sender's request entry and
waiting membership (each only if present) and emit `request-cancelled` back. -/
def handle_cancel_request (sid : String) (s : St) : St × List Emission :=
  ({ s with
      client_requests := dictDel sid s.client_requests,
      waiting_clients := setDel sid s.waiting_clients },
   [⟨"request-cancelled", Target.room sid, []⟩])

/-- app1.py `handle_accept_request`: if the named client is not waiting (falsy
id, already claimed, cancelled, or never present), emit the race-lost error and
stop; otherwise create the session under a fresh id, clear the pending request,
and notify both parties. -/
def handle_accept_request (therapistSid clientSid : String) (s : St) :
    St × List Emission :=
  if clientSid = "" ∨ clientSid ∉ s.waiting_clients then
    (s, [⟨"error", Target.room therapistSid,
          [("message", JVal.s "Client request no longer available")]⟩])
  else
    ({ s with
        active_sessions := s.active_sessions ++
          [(s.next_id, ⟨clientSid, therapistSid, s.clock, s.clock + 600, "active"⟩)],
        waiting_clients := setDel clientSid s.waiting_clients,
        client_requests := dictDel clientSid s.client_requests,
        next_id := s.next_id + 1 },
     [⟨"request-accepted", Target.room clientSid,
        [("session_id", JVal.n s.next_id), ("therapist_sid", JVal.s therapistSid)]⟩,
      ⟨"session-started", Target.room therapistSid,
        [("session_id", JVal.n s.next_id), ("client_sid", JVal.s clientSid)]⟩])

/-- app1.py `handle_decline_request`: remove the named client's waiting
membership and request entry (each only if present) and emit `request-declined`
to the client, unconditionally. -/
def handle_decline_request (_therapistSid clientSid : String) (s : St) :
    St × List Emission :=
  ({ s with
      waiting_clients := setDel clientSid s.waiting_clients,
      client_requests := dictDel clientSid s.client_requests },
   [⟨"request-declined", Target.room clientSid, []⟩])

/-- Common body of app1.py's `handle_offer` / `handle_answer` /
`handle_ice_candidate` (the three handlers are verbatim copies of each other in
the source, differing only in the event name and payload key): look the sender's
session up; if none, do nothing; else forward the payload with the sender id to
the other party. -/
def relay (eventName payloadKey : String) (sid : String) (v : JVal) (s : St) :
    St × List Emission :=
  match find_session_by_participant sid s with
  | none => (s, [])
  | some (_, sess) =>
    let targetSid := if sid = sess.therapist_sid then sess.client_sid else sess.therapist_sid
    (s, [⟨eventName, Target.room targetSid,
          [(payloadKey, v), ("from_sid", JVal.s sid)]⟩])

/-- app1.py `handle_offer`. -/
def handle_offer (sid : String) (v : JVal) (s : St) : St × List Emission :=
  relay "offer" "offer" sid v s

/-- app1.py `handle_answer`. -/
def handle_answer (sid : String) (v : JVal) (s : St) : St × List Emission :=
  relay "answer" "answer" sid v s

/-- app1.py `handle_ice_candidate`. -/
def handle_ice_candidate (sid : String) (v : JVal) (s : St) : St × List Emission :=
  relay "ice-candidate" "candidate" sid v s

/-- app1.py `handle_end_session`: find the sender's session; if found, notify
both parties and delete it. -/
def handle_end_session (sid : String) (s : St) : St × List Emission :=
  match find_session_by_participant sid s with
  | none => (s, [])
  | some (sessionId, sess) =>
    ({ s with active_sessions := dictDel sessionId s.active_sessions },
     [⟨"session-ended", Target.room sess.client_sid, []⟩,
      ⟨"session-ended", Target.room sess.therapist_sid, []⟩])

/-- The deferred action armed by app1.py `start_session_timer`, as run after its
600-second sleep: look the session up by id; if still present, notify both
parties and delete it; otherwise do nothing. -/
def timer_fire (sessionId : Nat) (s : St) : St × List Emission :=
  match dictGet sessionId s.active_sessions with
  | none => (s, [])
  | some sess =>
    ({ s with active_sessions := dictDel sessionId s.active_sessions },
     [⟨"session-ended", Target.room sess.client_sid, []⟩,
      ⟨"session-ended", Target.room sess.therapist_sid, []⟩])

/-- Inbound events of app1.py's socket interface.  Each carries the sender's
socket id (`request.sid`); `timerFire` stands for a session timer thread waking
up after its sleep. -/
inductive Ev where
  | disconnect (sid : String)
  | therapistOnline (sid : String)
  | therapistOffline (sid : String)
  | requestTherapist (sid : String)
  | cancelRequest (sid : String)
  | acceptRequest (therapistSid clientSid : String)
  | declineRequest (therapistSid clientSid : String)
  | offerEv (sid : String) (v : JVal)
  | answerEv (sid : String) (v : JVal)
  | iceCandidateEv (sid : String) (v : JVal)
  | endSessionEv (sid : String)
  | timerFire (sessionId : Nat)
  deriving DecidableEq, Repr

/-- Dispatch one inbound event to its handler and run the handler to completion
with no interleaving.  The source serializes nothing — flask-socketio is
configured with `async_mode='threading'` and no lock guards the shared stores —
so a whole-handler step is only one of the schedules the preemptive threaded
runtime permits.  These steps are used below to build concrete reachable
states; the overlapping schedules the runtime also permits are modelled by the
statement-level interpreters `acceptMicroStep` and `endMicroStep`. -/
def step (s : St) (e : Ev) : St × List Emission :=
  match e with
  | Ev.disconnect sid => handle_disconnect sid s
  | Ev.therapistOnline sid => handle_therapist_online sid s
  | Ev.therapistOffline sid => handle_therapist_offline sid s
  | Ev.requestTherapist sid => handle_request_therapist sid s
  | Ev.cancelRequest sid => handle_cancel_request sid s
  | Ev.acceptRequest t c => handle_accept_request t c s
  | Ev.declineRequest t c => handle_decline_request t c s
  | Ev.offerEv sid v => handle_offer sid v s
  | Ev.answerEv sid v => handle_answer sid v s
  | Ev.iceCandidateEv sid v => handle_ice_candidate sid v s
  | Ev.endSessionEv sid => handle_end_session sid s
  | Ev.timerFire sessionId => timer_fire sessionId s

/-- Run a sequence of events, returning the final state. -/
def run (s : St) : List Ev → St
  | [] => s
  | e :: rest => run (step s e).1 rest

/-- Reachable state for the double-accept scenario of §8 of the spec: one
therapist online, two clients waiting, the therapist has accepted the first. -/
def oneAcceptedSt : St :=
  run initSt [Ev.therapistOnline "T", Ev.requestTherapist "C1", Ev.requestTherapist "C2",
    Ev.acceptRequest "T" "C1"]

/-- Reachable state in which therapist `T` is party to two active sessions at
once: `T` accepted `C1` and then, while that session was still active, also
accepted `C2`. -/
def twoSessionsSt : St :=
  run initSt [Ev.therapistOnline "T", Ev.requestTherapist "C1", Ev.requestTherapist "C2",
    Ev.acceptRequest "T" "C1", Ev.acceptRequest "T" "C2"]

/-- Reachable state with two therapists online and one client waiting. -/
def twoTherapistsWaitingSt : St :=
  run initSt [Ev.therapistOnline "T1", Ev.therapistOnline "T2", Ev.requestTherapist "C"]

/-- Reachable state with one therapist online and nobody waiting. -/
def oneTherapistSt : St :=
  run initSt [Ev.therapistOnline "T"]

/-- One in-flight `handle_accept_request` call of app1.py, executing on its own
preemptive thread (the server runs with `async_mode='threading'` and no lock
guards the shared stores).  `pc` is the next source statement to execute:
0 the guard of line 118, 1 the session creation of lines 123-130,
2 `waiting_clients.remove` of line 133, 3 the request deletion of lines 134-135,
4 the `request-accepted` emit of line 138, 5 the `session-started` emit of
line 144, 6 the handler has returned.  `sessionId` is the thread-local
`session_id` once line 123 has run; `crashed` records a `KeyError` escaping the
handler (the framework logs it; the remaining statements never run and nothing
more is emitted); `emitted` are the emissions this thread has performed so
far. -/
structure AcceptThread where
  therapist : String
  client : String
  sessionId : Option Nat
  pc : Nat
  crashed : Bool
  emitted : List Emission
  deriving DecidableEq, Repr

/-- A fresh `handle_accept_request` invocation by therapist `t` naming client
`c`, about to execute its first statement. -/
def startAccept (t c : String) : AcceptThread :=
  { therapist := t, client := c, sessionId := none, pc := 0, crashed := false,
    emitted := [] }

/-- Execute one source statement of an in-flight accept call against the shared
state.  Each statement runs atomically (CPython's interpreter lock), but the
scheduler may run statements of another thread between any two of them — the
statement-level refinement of app1.py's `handle_accept_request` that the
threaded runtime actually permits. -/
def acceptMicroStep (shared : St) (th : AcceptThread) : St × AcceptThread :=
  if th.crashed then (shared, th)
  else match th.pc with
  | 0 =>
    if th.client = "" ∨ th.client ∉ shared.waiting_clients then
      (shared, { th with pc := 6, emitted := th.emitted ++
        [⟨"error", Target.room th.therapist,
          [("message", JVal.s "Client request no longer available")]⟩] })
    else
      (shared, { th with pc := 1 })
  | 1 =>
    ({ shared with
        active_sessions := shared.active_sessions ++
          [(shared.next_id,
            ⟨th.client, th.therapist, shared.clock, shared.clock + 600, "active"⟩)],
        next_id := shared.next_id + 1 },
     { th with sessionId := some shared.next_id, pc := 2 })
  | 2 =>
    if th.client ∈ shared.waiting_clients then
      ({ shared with waiting_clients := setDel th.client shared.waiting_clients },
       { th with pc := 3 })
    else
      (shared, { th with crashed := true })
  | 3 =>
    ({ shared with client_requests := dictDel th.client shared.client_requests },
     { th with pc := 4 })
  | 4 =>
    (shared, { th with pc := 5, emitted := th.emitted ++
      [⟨"request-accepted", Target.room th.client,
        [("session_id", JVal.n (th.sessionId.getD 0)),
         ("therapist_sid", JVal.s th.therapist)]⟩] })
  | 5 =>
    (shared, { th with pc := 6, emitted := th.emitted ++
      [⟨"session-started", Target.room th.therapist,
        [("session_id", JVal.n (th.sessionId.getD 0)),
         ("client_sid", JVal.s th.client)]⟩] })
  | _ => (shared, th)

/-- Interleave two in-flight accept calls: each schedule entry runs one source
statement of the first (`false`) or the second (`true`) thread. -/
def raceAccepts (shared : St) (th1 th2 : AcceptThread) :
    List Bool → St × AcceptThread × AcceptThread
  | [] => (shared, th1, th2)
  | b :: rest =>
    if b then
      let r := acceptMicroStep shared th2
      raceAccepts r.1 th1 r.2 rest
    else
      let r := acceptMicroStep shared th1
      raceAccepts r.1 r.2 th2 rest

/-- The two kinds of thread that can end the same session concurrently: the
deferred timer of `start_session_timer`, which looks the session up by the id
it captured (app1.py lines 232-233), and a participant's `handle_end_session`,
which looks it up by the sender (lines 208-210). -/
inductive EndKind where
  | timerThread (sessionId : Nat)
  | endSessionThread (sid : String)
  deriving DecidableEq, Repr

/-- An in-flight session-ending thread.  `pc` is the next source statement:
0 the lookup (timer lines 232-233 / handler lines 208-210), 1 the
`session-ended` emit to the client (line 234 / 213), 2 the emit to the
therapist (line 235 / 214), 3 the `del active_sessions[session_id]`
(line 236 / 217 — a `KeyError` if the entry is already gone), 4 done.
`captured` is the thread-local session binding taken at the lookup. -/
structure EndThread where
  captured : Option (Nat × SessionRec)
  pc : Nat
  crashed : Bool
  emitted : List Emission
  deriving DecidableEq, Repr

/-- A fresh session-ending thread, about to execute its lookup. -/
def startEnd : EndThread :=
  { captured := none, pc := 0, crashed := false, emitted := [] }

/-- Execute one source statement of an in-flight session-ending thread against
the shared state.  The `none` fallbacks at pc 1-3 are unreachable (those
program points are only entered after a successful capture) but keep the
function total. -/
def endMicroStep (shared : St) (k : EndKind) (th : EndThread) : St × EndThread :=
  if th.crashed then (shared, th)
  else match th.pc with
  | 0 =>
    let found : Option (Nat × SessionRec) :=
      match k with
      | EndKind.timerThread sessionId =>
        (dictGet sessionId shared.active_sessions).map (fun sess => (sessionId, sess))
      | EndKind.endSessionThread sid => find_session_by_participant sid shared
    match found with
    | none => (shared, { th with pc := 4 })
    | some pr => (shared, { th with captured := some pr, pc := 1 })
  | 1 =>
    match th.captured with
    | some pr =>
      (shared, { th with pc := 2, emitted := th.emitted ++
        [⟨"session-ended", Target.room pr.2.client_sid, []⟩] })
    | none => (shared, { th with pc := 2 })
  | 2 =>
    match th.captured with
    | some pr =>
      (shared, { th with pc := 3, emitted := th.emitted ++
        [⟨"session-ended", Target.room pr.2.therapist_sid, []⟩] })
    | none => (shared, { th with pc := 3 })
  | 3 =>
    match th.captured with
    | some pr =>
      if (dictGet pr.1 shared.active_sessions).isSome then
        ({ shared with active_sessions := dictDel pr.1 shared.active_sessions },
         { th with pc := 4 })
      else
        (shared, { th with crashed := true })
    | none => (shared, { th with pc := 4 })
  | _ => (shared, th)

/-- Interleave two session-ending threads: each schedule entry runs one source
statement of the first (`false`) or the second (`true`) thread. -/
def raceEnds (shared : St) (k1 k2 : EndKind) (th1 th2 : EndThread) :
    List Bool → St × EndThread × EndThread
  | [] => (shared, th1, th2)
  | b :: rest =>
    if b then
      let r := endMicroStep shared k2 th2
      raceEnds r.1 k1 k2 th1 r.2 rest
    else
      let r := endMicroStep shared k1 th1
      raceEnds r.1 k1 k2 r.2 th2 rest

/-- The double-accept scenario of §8 of the spec run to completion under the
interleaving in which both guards (line 118) execute before either removal
(line 133): `T1`'s guard, `T2`'s guard, then all of `T1`'s body, then the rest
of `T2`'s body. -/
def acceptRaceResult : St × AcceptThread × AcceptThread :=
  raceAccepts twoTherapistsWaitingSt (startAccept "T1" "C") (startAccept "T2" "C")
    [false, true, false, false, false, false, false, true, true]

/-- The same two accept calls run without overlap: all of `T1`'s statements,
then `T2`'s. -/
def acceptSerializedResult : St × AcceptThread × AcceptThread :=
  raceAccepts twoTherapistsWaitingSt (startAccept "T1" "C") (startAccept "T2" "C")
    [false, false, false, false, false, false, true]

/-- The expiry timer of session 0 and `C1`'s explicit `end-session` run to
completion under the interleaving in which both lookups succeed before either
deletion: timer lookup, handler lookup, timer's two emits and its delete, then
the handler's two emits and its delete. -/
def endRaceResult : St × EndThread × EndThread :=
  raceEnds oneAcceptedSt (EndKind.timerThread 0) (EndKind.endSessionThread "C1")
    startEnd startEnd [false, true, false, false, false, true, true, true]

/-- The same two session-ending threads run without overlap: the whole timer
body, then the whole `end-session` handler. -/
def endSerializedResult : St × EndThread × EndThread :=
  raceEnds oneAcceptedSt (EndKind.timerThread 0) (EndKind.endSessionThread "C1")
    startEnd startEnd [false, false, false, false, true]

end App1

namespace App

/-- The global mutable state of app.py's SafeLine section: `online_therapists`
(a set), `pending_requests` (`client_sid -> therapist_sid`), and
`active_sessions` (`sid -> partner_sid`, kept symmetric by the handlers).
Python's set is unordered; `app.py` observes an arbitrary order only through
`list(online_therapists)[0]`, which the model renders as the head of the
insertion-ordered list — one admissible resolution of that arbitrary choice. -/
structure St where
  online_therapists : List String
  pending_requests : List (String × String)
  active_sessions : List (String × String)
  deriving DecidableEq, Repr

/-- The state at server start: all stores empty. -/
def initSt : St :=
  { online_therapists := [], pending_requests := [], active_sessions := [] }

/-- app.py `handle_disconnect`: discard from the therapist set, pop any pending
request keyed (not valued) by this id, pop the session entry, and if a partner
was recorded, pop the partner's entry too and notify the partner. -/
def handle_disconnect (sid : String) (s : St) : St × List Emission :=
  let online := setDel sid s.online_therapists
  let pending := dictDel sid s.pending_requests
  match dictGet sid s.active_sessions with
  | none =>
    ({ s with
        online_therapists := online,
        pending_requests := pending,
        active_sessions := dictDel sid s.active_sessions }, [])
  | some partner =>
    if partner = "" then
      ({ s with
          online_therapists := online,
          pending_requests := pending,
          active_sessions := dictDel sid s.active_sessions }, [])
    else
      ({ s with
          online_therapists := online,
          pending_requests := pending,
          active_sessions := dictDel partner (dictDel sid s.active_sessions) },
       [⟨"session-ended", Target.room partner, []⟩])

/-- app.py `handle_therapist_online`. -/
def handle_therapist_online (sid : String) (s : St) : St × List Emission :=
  ({ s with online_therapists := setAdd sid s.online_therapists }, [])

/-- app.py `handle_therapist_offline`. -/
def handle_therapist_offline (sid : String) (s : St) : St × List Emission :=
  ({ s with online_therapists := setDel sid s.online_therapists }, [])

/-- app.py `handle_accept_request`: if the client id is falsy or not pending,
return silently (no emission at all); otherwise pair both ids in
`active_sessions`, drop the pending request, and notify both parties. -/
def handle_accept_request (therapistSid clientSid : String) (s : St) :
    St × List Emission :=
  if clientSid = "" ∨ dictGet clientSid s.pending_requests = none then
    (s, [])
  else
    ({ s with
        active_sessions :=
          dictSet therapistSid clientSid (dictSet clientSid therapistSid s.active_sessions),
        pending_requests := dictDel clientSid s.pending_requests },
     [⟨"request-accepted", Target.room clientSid, [("role", JVal.s "client")]⟩,
      ⟨"request-accepted", Target.room therapistSid, [("role", JVal.s "therapist")]⟩])

/-- app.py `handle_decline_request`: if the client id is truthy, notify the
client and drop the pending request. -/
def handle_decline_request (clientSid : String) (s : St) : St × List Emission :=
  if clientSid = "" then (s, [])
  else
    ({ s with pending_requests := dictDel clientSid s.pending_requests },
     [⟨"request-declined", Target.room clientSid, []⟩])

/-- app.py `handle_request_therapist`: error if no therapist is online,
otherwise record `pending_requests[client] = therapist` for one arbitrarily
chosen online therapist (`list(online_therapists)[0]`) and notify only that
therapist, then acknowledge the requester. -/
def handle_request_therapist (sid : String) (s : St) : St × List Emission :=
  match s.online_therapists.head? with
  | none =>
    (s, [⟨"error", Target.room sid, [("message", JVal.s "No therapists available")]⟩])
  | some therapistSid =>
    ({ s with pending_requests := dictSet sid therapistSid s.pending_requests },
     [⟨"therapist-request", Target.room therapistSid, [("clientId", JVal.s sid)]⟩,
      ⟨"request-sent", Target.room sid, []⟩])

/-- app.py `handle_cancel_request`: pop the sender's pending request; nothing is
emitted. -/
def handle_cancel_request (sid : String) (s : St) : St × List Emission :=
  ({ s with pending_requests := dictDel sid s.pending_requests }, [])

/-- Common body of app.py's `handle_offer` / `handle_answer` /
`handle_ice_candidate` (verbatim copies in the source up to event name and
payload key): look the sender's partner up; if the entry is present and truthy,
forward the payload with the sender id. -/
def relay (eventName payloadKey : String) (sid : String) (v : JVal) (s : St) :
    St × List Emission :=
  match dictGet sid s.active_sessions with
  | none => (s, [])
  | some target =>
    if target = "" then (s, [])
    else
      (s, [⟨eventName, Target.room target, [(payloadKey, v), ("from", JVal.s sid)]⟩])

/-- app.py `handle_offer`. -/
def handle_offer (sid : String) (v : JVal) (s : St) : St × List Emission :=
  relay "offer" "offer" sid v s

/-- app.py `handle_answer`. -/
def handle_answer (sid : String) (v : JVal) (s : St) : St × List Emission :=
  relay "answer" "answer" sid v s

/-- app.py `handle_ice_candidate`. -/
def handle_ice_candidate (sid : String) (v : JVal) (s : St) : St × List Emission :=
  relay "ice-candidate" "candidate" sid v s

/-- app.py `handle_end_session`: pop the sender's session entry; if a partner
was recorded, pop the partner's entry and notify the partner. -/
def handle_end_session (sid : String) (s : St) : St × List Emission :=
  match dictGet sid s.active_sessions with
  | none => ({ s with active_sessions := dictDel sid s.active_sessions }, [])
  | some partner =>
    if partner = "" then
      ({ s with active_sessions := dictDel sid s.active_sessions }, [])
    else
      ({ s with active_sessions := dictDel partner (dictDel sid s.active_sessions) },
       [⟨"session-ended", Target.room partner, []⟩])

/-- The deferred action of app.py `auto_end_session` after its 600-second sleep:
keyed by the client participant id (not a session id) — if the client id has any
entry in `active_sessions`, pop both captured ids and notify both, regardless of
whether the entry still belongs to the session that armed this timer. -/
def auto_end_fire (clientSid therapistSid : String) (s : St) : St × List Emission :=
  match dictGet clientSid s.active_sessions with
  | none => (s, [])
  | some _ =>
    ({ s with
        active_sessions := dictDel therapistSid (dictDel clientSid s.active_sessions) },
     [⟨"session-ended", Target.room clientSid, []⟩,
      ⟨"session-ended", Target.room therapistSid, []⟩])

end App

-- Basic lemmas about the dictionary and set primitives.

theorem dictGet_dictSet_self {κ α : Type} [DecidableEq κ] (k : κ) (v : α)
    (l : List (κ × α)) : dictGet k (dictSet k v l) = some v := by
  induction l with
  | nil => simp [dictGet, dictSet]
  | cons p rest ih =>
    by_cases h : k = p.1
    · simp [dictSet, h, dictGet]
    · simp [dictSet, h, dictGet, ih]

theorem dictGet_dictSet_ne {κ α : Type} [DecidableEq κ] {k k' : κ} (v : α)
    (l : List (κ × α)) (h : k ≠ k') : dictGet k (dictSet k' v l) = dictGet k l := by
  induction l with
  | nil => simp [dictGet, dictSet, h]
  | cons p rest ih =>
    by_cases h' : k' = p.1
    · subst h'
      simp [dictSet, dictGet, h]
    · by_cases h'' : k = p.1
      · simp [dictSet, h', dictGet, h'']
      · simp [dictSet, h', dictGet, h'', ih]

theorem dictGet_dictDel_self {κ α : Type} [DecidableEq κ] (k : κ)
    (l : List (κ × α)) : dictGet k (dictDel k l) = none := by
  induction l with
  | nil => rfl
  | cons p rest ih =>
    obtain ⟨k₀, v₀⟩ := p
    by_cases h : k₀ = k
    · simpa [dictDel, List.filter_cons, h] using ih
    · have hk : ¬ k = k₀ := fun hk => h hk.symm
      simpa [dictDel, List.filter_cons, h, dictGet, hk] using ih

theorem dictGet_dictDel_ne {κ α : Type} [DecidableEq κ] {k k' : κ}
    (l : List (κ × α)) (h : k ≠ k') : dictGet k (dictDel k' l) = dictGet k l := by
  induction l with
  | nil => rfl
  | cons p rest ih =>
    obtain ⟨k₀, v₀⟩ := p
    by_cases h' : k₀ = k'
    · simpa [dictDel, List.filter_cons, h', dictGet, h] using ih
    · by_cases h'' : k = k₀
      · simp [dictDel, List.filter_cons, h', dictGet, h'']
      · simpa [dictDel, List.filter_cons, h', dictGet, h''] using ih

theorem dictGet_eq_none_iff {κ α : Type} [DecidableEq κ] (k : κ)
    (l : List (κ × α)) : dictGet k l = none ↔ ∀ p ∈ l, p.1 ≠ k := by
  induction l with
  | nil => simp [dictGet]
  | cons p rest ih =>
    by_cases h : k = p.1
    · simp [dictGet, h]
    · simp [dictGet, h, ih, fun hk : p.1 = k => h hk.symm]
      intro _
      exact fun hk => h hk.symm

theorem mem_of_dictGet_eq_some {κ α : Type} [DecidableEq κ] {k : κ} {v : α}
    {l : List (κ × α)} (h : dictGet k l = some v) : (k, v) ∈ l := by
  induction l with
  | nil => simp [dictGet] at h
  | cons p rest ih =>
    simp only [dictGet] at h
    by_cases h' : k = p.1
    · rw [if_pos h'] at h
      have hv : p.2 = v := Option.some.inj h
      have hp : (k, v) = p := by
        cases p
        simp only at h' hv
        simp [h', hv]
      rw [hp]
      exact List.mem_cons_self _ _
    · rw [if_neg h'] at h
      exact List.mem_cons_of_mem _ (ih h)

theorem dictGet_append {κ α : Type} [DecidableEq κ] (k : κ)
    (l₁ l₂ : List (κ × α)) :
    dictGet k (l₁ ++ l₂) =
      (match dictGet k l₁ with
       | some v => some v
       | none => dictGet k l₂) := by
  induction l₁ with
  | nil => simp [dictGet]
  | cons p rest ih =>
    by_cases h : k = p.1
    · simp [dictGet, h]
    · simp [dictGet, h, ih]

theorem dictDel_eq_self_of_dictGet_none {κ α : Type} [DecidableEq κ] {k : κ}
    {l : List (κ × α)} (h : dictGet k l = none) : dictDel k l = l := by
  rw [dictGet_eq_none_iff] at h
  exact List.filter_eq_self.2 (fun p hp => by simpa using h p hp)

theorem not_mem_setDel_self (x : String) (l : List String) : x ∉ setDel x l := by
  simp [setDel]

theorem mem_setDel_of_ne {x y : String} (l : List String) (h : y ≠ x)
    (hm : y ∈ l) : y ∈ setDel x l := by
  simp [setDel, h, hm]

theorem setDel_eq_self_of_not_mem {x : String} {l : List String} (h : x ∉ l) :
    setDel x l = l :=
  List.filter_eq_self.2 (fun y hy => by
    simp
    exact fun hxy => h (hxy ▸ hy))

-- Claims about the matchmaking protocol (broadcast variant, app1.py, which the
-- spec fixes as the canonical policy).

/-- C4: whenever a therapist sends `accept-request` for a client id with no
pending request (already claimed, already cancelled, or never present), the core
emits the race-lost error to that therapist and changes nothing: not the
therapist pool, not the pending requests, not the session table — the state is
returned untouched. -/
theorem C4_accept_unavailable_is_pure_error (s : App1.St) (t c : String)
    (h : c ∉ s.waiting_clients) :
    App1.handle_accept_request t c s =
      (s, [⟨"error", Target.room t,
            [("message", JVal.s "Client request no longer available")]⟩]) := by
  unfold App1.handle_accept_request
  rw [if_pos (Or.inr h)]

/-- Witness for C4 at a concrete reachable state: nobody is waiting right after
a lone therapist comes online, so an accept for client `C` observes the error. -/
theorem C4_witness :
    "C" ∉ App1.oneTherapistSt.waiting_clients ∧
    App1.handle_accept_request "T" "C" App1.oneTherapistSt =
      (App1.oneTherapistSt, [⟨"error", Target.room "T",
        [("message", JVal.s "Client request no longer available")]⟩]) :=
  ⟨by decide, C4_accept_unavailable_is_pure_error App1.oneTherapistSt "T" "C" (by decide)⟩

/-- C9: `cancel-request` always removes the sender's pending request entry and
waiting membership and emits `request-cancelled` to the requester (and nothing
else — in particular no error); when the sender had no pending request, the
state is unchanged. -/
theorem C9_cancel_request_idempotent (s : App1.St) (c : String) :
    App1.handle_cancel_request c s =
      ({ s with
          client_requests := dictDel c s.client_requests,
          waiting_clients := setDel c s.waiting_clients },
       [⟨"request-cancelled", Target.room c, []⟩])
  ∧ (dictGet c s.client_requests = none → c ∉ s.waiting_clients →
      (App1.handle_cancel_request c s).1 = s) := by
  constructor
  · rfl
  · intro h1 h2
    show ({ s with
            client_requests := dictDel c s.client_requests,
            waiting_clients := setDel c s.waiting_clients } : App1.St) = s
    rw [dictDel_eq_self_of_dictGet_none h1, setDel_eq_self_of_not_mem h2]

/-- Witness for C9 at the initial state, where nothing is pending. -/
theorem C9_witness :
    App1.handle_cancel_request "C" App1.initSt =
      ({ App1.initSt with
          client_requests := dictDel "C" App1.initSt.client_requests,
          waiting_clients := setDel "C" App1.initSt.waiting_clients },
       [⟨"request-cancelled", Target.room "C", []⟩])
  ∧ (App1.handle_cancel_request "C" App1.initSt).1 = App1.initSt :=
  ⟨(C9_cancel_request_idempotent App1.initSt "C").1,
   (C9_cancel_request_idempotent App1.initSt "C").2 rfl (by decide)⟩

/-- C6 counterexample: with two therapists online and client `C` waiting, a
single `decline-request` from `T1` removes `C`'s pending request and emits
`request-declined` to `C`, even though therapist `T2` remains online and could
still have accepted — refuting both halves of the claim at a concrete reachable
state. -/
theorem C6_counterexample :
    "C" ∈ App1.twoTherapistsWaitingSt.waiting_clients
  ∧ "T2" ∈ App1.twoTherapistsWaitingSt.online_therapists
  ∧ "C" ∉ (App1.handle_decline_request "T1" "C" App1.twoTherapistsWaitingSt).1.waiting_clients
  ∧ dictGet "C" (App1.handle_decline_request "T1" "C" App1.twoTherapistsWaitingSt).1.client_requests
      = none
  ∧ (App1.handle_decline_request "T1" "C" App1.twoTherapistsWaitingSt).2 =
      [⟨"request-declined", Target.room "C", []⟩] := by
  decide

/-- C6 amended: a `decline-request` naming client `c` unconditionally removes
`c`'s pending request (waiting membership and request entry) and emits
`request-declined` to `c`, regardless of how many other therapists remain
online. -/
theorem C6_decline_removes_request (s : App1.St) (t c : String) :
    App1.handle_decline_request t c s =
      ({ s with
          waiting_clients := setDel c s.waiting_clients,
          client_requests := dictDel c s.client_requests },
       [⟨"request-declined", Target.room c, []⟩]) := rfl

/-- C5 counterexample: with `T` the only online therapist and `C`, `T`, `X`
connected, `C`'s `request-therapist` makes the `therapist-request` event reach
all three connected sockets — not only the online-therapist snapshot `[T]` —
because the source emits it with `broadcast=True`. -/
theorem C5_counterexample :
    App1.oneTherapistSt.online_therapists = ["T"]
  ∧ recipientsOf ["C", "T", "X"] "therapist-request"
      (App1.handle_request_therapist "C" App1.oneTherapistSt).2 = ["C", "T", "X"]
  ∧ ¬ (recipientsOf ["C", "T", "X"] "therapist-request"
        (App1.handle_request_therapist "C" App1.oneTherapistSt).2 =
       App1.oneTherapistSt.online_therapists) := by
  decide

/-- C5 amended: a `request-therapist` arriving while the therapist pool is
non-empty records a pending request for the sender (request entry plus waiting
membership) and emits `therapist-request` carrying the sender's id as a
broadcast — so every online therapist receives it whenever it is connected, but
so does every other connected participant — followed by `request-sent` to the
requester. -/
theorem C5_request_broadcast (s : App1.St) (c : String)
    (h : s.online_therapists ≠ []) :
    App1.handle_request_therapist c s =
      ({ s with
          client_requests := dictSet c ⟨s.clock, "waiting"⟩ s.client_requests,
          waiting_clients := setAdd c s.waiting_clients },
       [⟨"therapist-request", Target.broadcast,
          [("client_sid", JVal.s c), ("timestamp", JVal.n s.clock)]⟩,
        ⟨"request-sent", Target.room c, []⟩])
  ∧ ∀ conn : List String, s.online_therapists ⊆ conn →
      ∀ t ∈ s.online_therapists,
        t ∈ recipients conn
          ⟨"therapist-request", Target.broadcast,
            [("client_sid", JVal.s c), ("timestamp", JVal.n s.clock)]⟩ := by
  constructor
  · unfold App1.handle_request_therapist
    rw [if_neg h]
  · intro conn hsub t ht
    exact hsub ht

/-- Witness for C5's amended theorem at the concrete one-therapist state. -/
theorem C5_witness :
    App1.handle_request_therapist "C" App1.oneTherapistSt =
      ({ App1.oneTherapistSt with
          client_requests :=
            dictSet "C" ⟨App1.oneTherapistSt.clock, "waiting"⟩
              App1.oneTherapistSt.client_requests,
          waiting_clients := setAdd "C" App1.oneTherapistSt.waiting_clients },
       [⟨"therapist-request", Target.broadcast,
          [("client_sid", JVal.s "C"), ("timestamp", JVal.n App1.oneTherapistSt.clock)]⟩,
        ⟨"request-sent", Target.room "C", []⟩])
  ∧ "T" ∈ recipients ["C", "T", "X"]
      ⟨"therapist-request", Target.broadcast,
        [("client_sid", JVal.s "C"), ("timestamp", JVal.n App1.oneTherapistSt.clock)]⟩ :=
  ⟨(C5_request_broadcast App1.oneTherapistSt "C" (by decide)).1,
   (C5_request_broadcast App1.oneTherapistSt "C" (by decide)).2
     ["C", "T", "X"] (by decide) "T" (by decide)⟩

/-- C2 counterexample: from the reachable state in which therapist `T` already
has an active session with `C1`, the accept for waiting client `C2` does not
fail with `AlreadyInSession`: it succeeds (emitting `request-accepted` and
`session-started`) and leaves `T` party to two active sessions at once. -/
theorem C2_counterexample :
    (App1.step App1.oneAcceptedSt (App1.Ev.acceptRequest "T" "C2")).1.active_sessions.countP
        (fun p => App1.participates "T" p.2) = 2
  ∧ (App1.step App1.oneAcceptedSt (App1.Ev.acceptRequest "T" "C2")).2 =
      [⟨"request-accepted", Target.room "C2",
         [("session_id", JVal.n 1), ("therapist_sid", JVal.s "T")]⟩,
       ⟨"session-started", Target.room "T",
         [("session_id", JVal.n 1), ("client_sid", JVal.s "C2")]⟩] := by
  decide

/-- C2 amended: `handle_accept_request` performs no `AlreadyInSession` check at
all — whenever the named client is waiting, the accept succeeds and appends a
fresh session, raising the count of active sessions containing the accepting
therapist by one (so a participant can be party to several active sessions), and
no error is emitted. -/
theorem C2_accept_has_no_session_guard (s : App1.St) (t c : String)
    (h1 : c ≠ "") (h2 : c ∈ s.waiting_clients) :
    (App1.handle_accept_request t c s).1.active_sessions.countP
        (fun p => App1.participates t p.2) =
      s.active_sessions.countP (fun p => App1.participates t p.2) + 1
  ∧ ∀ em ∈ (App1.handle_accept_request t c s).2, em.event ≠ "error" := by
  have hguard : ¬ (c = "" ∨ c ∉ s.waiting_clients) :=
    not_or.mpr ⟨h1, not_not_intro h2⟩
  constructor
  · simp only [App1.handle_accept_request, if_neg hguard]
    rw [List.countP_append]
    simp [App1.participates]
  · simp only [App1.handle_accept_request, if_neg hguard]
    intro em hm
    simp only [List.mem_cons, List.mem_singleton, List.not_mem_nil, or_false] at hm
    rcases hm with rfl | rfl <;> simp

/-- Witness for C2's amended theorem at the state where `T` already holds a
session with `C1` and `C2` is waiting. -/
theorem C2_witness :
    (App1.handle_accept_request "T" "C2" App1.oneAcceptedSt).1.active_sessions.countP
        (fun p => App1.participates "T" p.2) =
      App1.oneAcceptedSt.active_sessions.countP (fun p => App1.participates "T" p.2) + 1
  ∧ ∀ em ∈ (App1.handle_accept_request "T" "C2" App1.oneAcceptedSt).2,
      em.event ≠ "error" :=
  C2_accept_has_no_session_guard App1.oneAcceptedSt "T" "C2" (by decide) (by decide)

/-- C8: for each of the three signaling events — `offer`, `answer`,
`ice-candidate` — a sender in no active session is dropped silently (state
unchanged and nothing emitted; the first conjunct ties the handler's lookup to
the absence of any session containing the sender), while a sender whose session
lookup succeeds has the same-named event forwarded, with the payload unmodified
plus a `from_sid` field naming the sender, to the other participant of that
session and to nobody else. -/
theorem C8_signaling_relay (s : App1.St) (sid : String) (v : JVal) :
    (App1.find_session_by_participant sid s = none ↔
      ∀ p ∈ s.active_sessions, App1.participates sid p.2 = false)
  ∧ (App1.find_session_by_participant sid s = none →
      App1.handle_offer sid v s = (s, []) ∧
      App1.handle_answer sid v s = (s, []) ∧
      App1.handle_ice_candidate sid v s = (s, []))
  ∧ (∀ sessionId sess,
      App1.find_session_by_participant sid s = some (sessionId, sess) →
      App1.handle_offer sid v s = (s,
        [⟨"offer",
          Target.room (if sid = sess.therapist_sid then sess.client_sid
                       else sess.therapist_sid),
          [("offer", v), ("from_sid", JVal.s sid)]⟩]) ∧
      App1.handle_answer sid v s = (s,
        [⟨"answer",
          Target.room (if sid = sess.therapist_sid then sess.client_sid
                       else sess.therapist_sid),
          [("answer", v), ("from_sid", JVal.s sid)]⟩]) ∧
      App1.handle_ice_candidate sid v s = (s,
        [⟨"ice-candidate",
          Target.room (if sid = sess.therapist_sid then sess.client_sid
                       else sess.therapist_sid),
          [("candidate", v), ("from_sid", JVal.s sid)]⟩])) := by
  refine ⟨?_, ?_, ?_⟩
  · unfold App1.find_session_by_participant
    rw [List.find?_eq_none]
    constructor
    · intro h p hp
      have := h p hp
      simpa using this
    · intro h p hp
      simp [h p hp]
  · intro hf
    refine ⟨?_, ?_, ?_⟩ <;>
      simp only [App1.handle_offer, App1.handle_answer, App1.handle_ice_candidate,
        App1.relay, hf]
  · intro sessionId sess hf
    refine ⟨?_, ?_, ?_⟩ <;>
      simp only [App1.handle_offer, App1.handle_answer, App1.handle_ice_candidate,
        App1.relay, hf]

/-- Witness for C8: at the reachable state where `C1` and `T` share session 0,
an offer from an outsider `Z` is dropped, and `C1`'s offer reaches exactly `T`
with the payload preserved. -/
theorem C8_witness :
    (App1.handle_offer "Z" (JVal.s "sdp") App1.oneAcceptedSt =
      (App1.oneAcceptedSt, []))
  ∧ (App1.handle_offer "C1" (JVal.s "sdp") App1.oneAcceptedSt =
      (App1.oneAcceptedSt,
       [⟨"offer", Target.room "T",
         [("offer", JVal.s "sdp"), ("from_sid", JVal.s "C1")]⟩])) := by
  have hz := ((C8_signaling_relay App1.oneAcceptedSt "Z" (JVal.s "sdp")).2.1
    (by decide)).1
  have hc := ((C8_signaling_relay App1.oneAcceptedSt "C1" (JVal.s "sdp")).2.2
    0 ⟨"C1", "T", 0, 600, "active"⟩ (by decide)).1
  exact ⟨hz, by simpa using hc⟩

/-- C10: in the single-target variant (app.py), disconnecting the therapist a
pending request targets removes only entries *keyed* by that therapist: the
client's pending entry (whose stored value is the therapist) survives, the
therapist leaves the pool, and a later `accept-request` for that client from any
other therapist still succeeds, pairing the two and notifying them. -/
theorem C10_disconnect_keeps_targeted_requests (s : App.St) (c t₀ t₁ : String)
    (hp : dictGet c s.pending_requests = some t₀)
    (hct : c ≠ t₀) (hc : c ≠ "") (hct1 : c ≠ t₁) :
    dictGet c (App.handle_disconnect t₀ s).1.pending_requests = some t₀
  ∧ t₀ ∉ (App.handle_disconnect t₀ s).1.online_therapists
  ∧ dictGet c
      (App.handle_accept_request t₁ c (App.handle_disconnect t₀ s).1).1.active_sessions
      = some t₁
  ∧ dictGet t₁
      (App.handle_accept_request t₁ c (App.handle_disconnect t₀ s).1).1.active_sessions
      = some c
  ∧ (App.handle_accept_request t₁ c (App.handle_disconnect t₀ s).1).2 =
      [⟨"request-accepted", Target.room c, [("role", JVal.s "client")]⟩,
       ⟨"request-accepted", Target.room t₁, [("role", JVal.s "therapist")]⟩] := by
  have hpend : (App.handle_disconnect t₀ s).1.pending_requests =
      dictDel t₀ s.pending_requests := by
    unfold App.handle_disconnect
    split <;> first | rfl | (split <;> rfl)
  have honline : (App.handle_disconnect t₀ s).1.online_therapists =
      setDel t₀ s.online_therapists := by
    unfold App.handle_disconnect
    split <;> first | rfl | (split <;> rfl)
  have hp1 : dictGet c (App.handle_disconnect t₀ s).1.pending_requests = some t₀ := by
    rw [hpend, dictGet_dictDel_ne _ hct, hp]
  have hguard : ¬ (c = "" ∨
      dictGet c (App.handle_disconnect t₀ s).1.pending_requests = none) := by
    rw [hp1]
    simp [hc]
  refine ⟨hp1, ?_, ?_, ?_, ?_⟩
  · rw [honline]
    exact not_mem_setDel_self t₀ _
  · simp only [App.handle_accept_request, if_neg hguard]
    rw [dictGet_dictSet_ne _ _ hct1, dictGet_dictSet_self]
  · simp only [App.handle_accept_request, if_neg hguard]
    rw [dictGet_dictSet_self]
  · simp only [App.handle_accept_request, if_neg hguard]

/-- Witness for C10 at a concrete state: `C`'s request targets `T0`, `T0`
disconnects, and `T1`'s accept still creates the session. -/
theorem C10_witness :
    dictGet "C"
      (App.handle_disconnect "T0"
        ⟨["T0"], [("C", "T0")], []⟩).1.pending_requests = some "T0"
  ∧ "T0" ∉ (App.handle_disconnect "T0" ⟨["T0"], [("C", "T0")], []⟩).1.online_therapists
  ∧ dictGet "C"
      (App.handle_accept_request "T1" "C"
        (App.handle_disconnect "T0" ⟨["T0"], [("C", "T0")], []⟩).1).1.active_sessions
      = some "T1"
  ∧ dictGet "T1"
      (App.handle_accept_request "T1" "C"
        (App.handle_disconnect "T0" ⟨["T0"], [("C", "T0")], []⟩).1).1.active_sessions
      = some "C"
  ∧ (App.handle_accept_request "T1" "C"
      (App.handle_disconnect "T0" ⟨["T0"], [("C", "T0")], []⟩).1).2 =
      [⟨"request-accepted", Target.room "C", [("role", JVal.s "client")]⟩,
       ⟨"request-accepted", Target.room "T1", [("role", JVal.s "therapist")]⟩] :=
  C10_disconnect_keeps_targeted_requests ⟨["T0"], [("C", "T0")], []⟩ "C" "T0" "T1"
    (by decide) (by decide) (by decide) (by decide)

/-- Removing all entries keyed `k` from a table that contains at most one entry
satisfying `q` — among them the entry `(k, f)` — leaves no entry satisfying
`q`. -/
theorem countP_dictDel_eq_zero {κ α : Type} [DecidableEq κ] (q : κ × α → Bool)
    (l : List (κ × α)) (k : κ) (f : α) (hmem : (k, f) ∈ l) (hq : q (k, f) = true)
    (hle : l.countP q ≤ 1) : (dictDel k l).countP q = 0 := by
  have hsub : List.Sublist ((dictDel k l).filter q) (l.filter q) :=
    List.Sublist.filter q (l.filter_sublist)
  have hf : (k, f) ∈ l.filter q := List.mem_filter.2 ⟨hmem, hq⟩
  have hlen : (l.filter q).length = 1 := by
    refine le_antisymm ?_ (List.length_pos_of_mem hf)
    rw [← List.countP_eq_length_filter]
    exact hle
  obtain ⟨a, ha⟩ := List.length_eq_one.1 hlen
  have ha' : a = (k, f) := by
    rw [ha] at hf
    exact (List.mem_singleton.1 hf).symm
  rw [ha, ha'] at hsub
  rcases List.sublist_singleton.1 hsub with h0 | h1
  · rw [List.countP_eq_length_filter, h0]
    rfl
  · exfalso
    have hm1 : (k, f) ∈ (dictDel k l).filter q := by
      rw [h1]
      exact List.mem_singleton.2 rfl
    have hm2 : (k, f) ∈ dictDel k l := (List.mem_filter.1 hm1).1
    have hm3 := (List.mem_filter.1 hm2).2
    simp at hm3

/-- C7 counterexample: from the reachable state in which therapist `T` is party
to two active sessions (having accepted `C1` and then `C2`), the disconnect
cleanup for `T` removes only the first session containing `T` — afterwards `T`
is still party to an active session, refuting the claim's universally-quantified
postcondition. -/
theorem C7_counterexample :
    (App1.handle_disconnect "T" App1.twoSessionsSt).1.active_sessions.countP
      (fun p => App1.participates "T" p.2) = 1
  ∧ dictGet 1 (App1.handle_disconnect "T" App1.twoSessionsSt).1.active_sessions =
      some ⟨"C2", "T", 0, 600, "active"⟩ := by
  decide

/-- C7 amended: after `handle_disconnect id`, the id is absent from the
therapist pool, has no pending-request entry and no waiting membership, and —
provided it was party to at most one active session, the only situation the rest
of the protocol is meant to produce — it is party to no active session; the
cleanup never emits an error (and, being a total function, never raises). -/
theorem C7_disconnect_cleanup (s : App1.St) (id : String) :
    id ∉ (App1.handle_disconnect id s).1.online_therapists
  ∧ dictGet id (App1.handle_disconnect id s).1.client_requests = none
  ∧ id ∉ (App1.handle_disconnect id s).1.waiting_clients
  ∧ (s.active_sessions.countP (fun p => App1.participates id p.2) ≤ 1 →
      (App1.handle_disconnect id s).1.active_sessions.countP
        (fun p => App1.participates id p.2) = 0)
  ∧ ∀ em ∈ (App1.handle_disconnect id s).2, em.event ≠ "error" := by
  cases hf : App1.find_session_by_participant id s with
  | none =>
    refine ⟨?_, ?_, ?_, ?_, ?_⟩ <;> simp only [App1.handle_disconnect, hf]
    · exact not_mem_setDel_self id _
    · exact dictGet_dictDel_self id _
    · exact not_mem_setDel_self id _
    · intro _
      refine List.countP_eq_zero.2 (fun p hp => ?_)
      have := List.find?_eq_none.1 hf p hp
      simpa using this
    · intro em hm
      by_cases ho : id ∈ s.online_therapists
      · simp only [ho, if_true, List.mem_singleton] at hm
        rw [hm]
        simp
      · simp [ho] at hm
  | some found =>
    obtain ⟨sessionId, sess⟩ := found
    have hmem : (sessionId, sess) ∈ s.active_sessions :=
      List.mem_of_find?_eq_some hf
    have hq : App1.participates id sess = true := by
      have := List.find?_some hf
      simpa using this
    refine ⟨?_, ?_, ?_, ?_, ?_⟩ <;> simp only [App1.handle_disconnect, hf]
    · exact not_mem_setDel_self id _
    · exact dictGet_dictDel_self id _
    · exact not_mem_setDel_self id _
    · intro hle
      exact countP_dictDel_eq_zero _ s.active_sessions sessionId sess hmem hq hle
    · intro em hm
      rw [List.mem_append] at hm
      rcases hm with hm | hm
      · by_cases ho : id ∈ s.online_therapists
        · simp only [ho, if_true, List.mem_singleton] at hm
          rw [hm]
          simp
        · simp [ho] at hm
      · by_cases he : (if id = sess.client_sid then sess.therapist_sid
            else sess.client_sid) = ""
        · simp [he] at hm
        · simp only [he, if_false, List.mem_cons, List.mem_singleton,
            List.not_mem_nil, or_false] at hm
          rcases hm with rfl | rfl <;> simp

/-- Witness for C7 at the reachable state where `T` holds a single session with
`C1`: after `T` disconnects, `T` is gone from every store, and the cleanup's
`session-ended` notification to `C1` is not an error. -/
theorem C7_witness :
    "T" ∉ (App1.handle_disconnect "T" App1.oneAcceptedSt).1.online_therapists
  ∧ dictGet "T" (App1.handle_disconnect "T" App1.oneAcceptedSt).1.client_requests = none
  ∧ "T" ∉ (App1.handle_disconnect "T" App1.oneAcceptedSt).1.waiting_clients
  ∧ (App1.handle_disconnect "T" App1.oneAcceptedSt).1.active_sessions.countP
      (fun p => App1.participates "T" p.2) = 0
  ∧ (⟨"session-ended", Target.room "C1", []⟩ : Emission).event ≠ "error" :=
  ⟨(C7_disconnect_cleanup App1.oneAcceptedSt "T").1,
   (C7_disconnect_cleanup App1.oneAcceptedSt "T").2.1,
   (C7_disconnect_cleanup App1.oneAcceptedSt "T").2.2.1,
   (C7_disconnect_cleanup App1.oneAcceptedSt "T").2.2.2.1 (by decide),
   (C7_disconnect_cleanup App1.oneAcceptedSt "T").2.2.2.2
     ⟨"session-ended", Target.room "C1", []⟩ (by decide)⟩

/-- C1 (code bug): app1.py runs handlers on preemptive threads
(`async_mode='threading'`) with no lock, so two concurrent accepts for the same
waiting client may both execute the line-118 guard before either reaches the
line-133 removal.  Under that interleaving (first four conjuncts) both calls
pass the guard and create a session — two active sessions for `C` — while the
losing thread dies in a `KeyError` at `waiting_clients.remove` having emitted
nothing, so it never observes the race-lost error.  Run without overlap (last
two conjuncts) the same two calls satisfy the claim — one session, the loser
observes the error — so the failure is precisely the unsynchronized
check-then-act that the spec's atomic `ClaimPendingRequest` is meant to
prevent. -/
theorem C1_concurrent_accepts_race :
    App1.acceptRaceResult.1.active_sessions.countP
        (fun p => decide (p.2.client_sid = "C")) = 2
  ∧ App1.acceptRaceResult.2.2.crashed = true
  ∧ App1.acceptRaceResult.2.2.emitted = []
  ∧ App1.acceptRaceResult.2.1.emitted =
      [⟨"request-accepted", Target.room "C",
         [("session_id", JVal.n 0), ("therapist_sid", JVal.s "T1")]⟩,
       ⟨"session-started", Target.room "T1",
         [("session_id", JVal.n 0), ("client_sid", JVal.s "C")]⟩]
  ∧ App1.acceptSerializedResult.1.active_sessions.countP
        (fun p => decide (p.2.client_sid = "C")) = 1
  ∧ App1.acceptSerializedResult.2.2.emitted =
      [⟨"error", Target.room "T2",
         [("message", JVal.s "Client request no longer available")]⟩] := by
  decide

/-- C3 (code bug): the timer body (app1.py lines 232-236) and
`handle_end_session` (lines 208-217) are unsynchronized
check-then-emit-then-delete sequences over the shared session table.  Under the
interleaving in which both lookups succeed before either deletion (first four
conjuncts), each participant of session 0 receives `session-ended` twice — the
notification does not fire exactly once when two triggers race — and the thread
that deletes second dies in a `KeyError`.  Run without overlap (last conjunct)
the notification fires exactly once, so the failure is precisely the missing
exclusion around the check and the delete. -/
theorem C3_racing_end_and_timer_double_emit :
    (App1.endRaceResult.2.1.emitted ++ App1.endRaceResult.2.2.emitted).countP
        (fun em => decide (em = ⟨"session-ended", Target.room "C1", []⟩)) = 2
  ∧ (App1.endRaceResult.2.1.emitted ++ App1.endRaceResult.2.2.emitted).countP
        (fun em => decide (em = ⟨"session-ended", Target.room "T", []⟩)) = 2
  ∧ App1.endRaceResult.2.2.crashed = true
  ∧ dictGet 0 App1.endRaceResult.1.active_sessions = none
  ∧ (App1.endSerializedResult.2.1.emitted ++ App1.endSerializedResult.2.2.emitted).countP
        (fun em => decide (em = ⟨"session-ended", Target.room "C1", []⟩)) = 1
  ∧ (App1.endSerializedResult.2.1.emitted ++ App1.endSerializedResult.2.2.emitted).countP
        (fun em => decide (em = ⟨"session-ended", Target.room "T", []⟩)) = 1 := by
  decide

end SafeSpace
